import Mathlib

/-!
Verification development for the wa-call-agent repository (src/server.js).

Shallow embedding of the call-handling core: the global calls Map, the
functions handleCallOffer, playAudioFromDrive, startSilentAudio,
handleRemoteIce and cleanupCall, the PCM frame-slicing loop, and the
relative 20 ms re-arm schedule used by the playback loop and by the
silent keepalive interval.

External effects (the WebRTC engine, the outbound HTTP call-control
submissions, file fetch and ffmpeg decode) are modelled by explicit
oracles recording whether each awaited step succeeds or throws.
Observable side effects (closed peer connections, stopped tracks, the
set of live interval timers, frames handed to an RTCAudioSource, ICE
candidates applied to a connection) are recorded in an explicit world
state, so every claim about the lifecycle can be checked by evaluation.
-/

namespace WaCall

/-- Association-list lookup on the first component, modelling Map.get of
the calls Map (and, with Nat keys, references into the object heap and
the table of live interval timers). -/
def alookup {α β : Type} [DecidableEq α] (k : α) : List (α × β) → Option β
  | [] => none
  | e :: es => if e.1 = k then some e.2 else alookup k es

/-- Removal of a key, modelling Map.delete and clearInterval. -/
def aremove {α β : Type} [DecidableEq α] (k : α) : List (α × β) → List (α × β)
  | [] => []
  | e :: es => if e.1 = k then aremove k es else e :: aremove k es

/- ## PCM frame slicing, from playAudioFromDrive (src/server.js lines 194-220) -/

/-- Reinterpretation of an unsigned 16-bit value as a signed int16,
the value semantics of Buffer.readInt16LE. -/
def toInt16 (v : Nat) : Int :=
  if v < 32768 then (v : Int) else (v : Int) - 65536

/-- pcm.readInt16LE(idx): little-endian signed 16-bit read at byte
offset idx. The byte list holds values below 256. -/
def readInt16LE (pcm : List Nat) (idx : Nat) : Int :=
  toInt16 (pcm.getD idx 0 + 256 * pcm.getD (idx + 1) 0)

/-- samples = 960, the 20 ms frame length at 48 kHz (server.js line 195). -/
def samplesPerFrame : Nat := 960

/-- frameBytes = samples * 2 (server.js line 196). -/
def frameBytes : Nat := samplesPerFrame * 2

/-- One sample of the frame starting at byte offset i: the inner loop
body (server.js lines 203-210). The sample at in-frame index j is read
from bytes i + j*2 and i + j*2 + 1 when both lie inside the buffer, and
is 0 (silence padding) otherwise. -/
def frameSample (pcm : List Nat) (i j : Nat) : Int :=
  if i + j * 2 + 1 < pcm.length then readInt16LE pcm (i + j * 2) else 0

/-- The frame starting at byte offset i: a fresh Int16Array(960) filled
by the inner loop (server.js lines 201-210). -/
def mkFrame (pcm : List Nat) (i : Nat) : List Int :=
  (List.range samplesPerFrame).map (frameSample pcm i)

/-- Byte offsets visited by the outer loop
for (i = 0; i < pcm.length; i += frameBytes) (server.js line 200). -/
def frameStarts (i n : Nat) : List Nat :=
  if _h : i < n then i :: frameStarts (i + frameBytes) n else []
termination_by n - i
decreasing_by simp only [frameBytes, samplesPerFrame]; omega

/-- The full sequence of frames the loop sends for a decoded PCM buffer. -/
def sliceFrames (pcm : List Nat) : List (List Int) :=
  (frameStarts 0 pcm.length).map (mkFrame pcm)

/- ## Timing of the frame-delivery loop (server.js lines 200-220 and 236-249)

The playback loop sends a frame and then awaits wait(20); the silent
keepalive is a setInterval(fn, 20). Both re-arm relative to the current
iteration, so iteration n + 1 starts 20 ms plus the processing and
event-loop overhead of iteration n after iteration n started. The
overhead is an arbitrary nonnegative function of the iteration. -/

/-- Emission time (ms) of frame n under the relative re-arm schedule:
frame 0 goes out at time 0, and each later frame goes out 20 ms plus
that iteration's overhead after the previous one. -/
def emitTime (ov : Nat → Nat) : Nat → Nat
  | 0 => 0
  | n + 1 => emitTime ov n + 20 + ov n

/-- Number of frames forwarded during the window [0, T] ms. Every frame
is at least 20 ms after the previous one, so all frames inside the
window have index at most T, and scanning indices 0..T is exhaustive. -/
def framesWithin (ov : Nat → Nat) (T : Nat) : Nat :=
  ((List.range (T + 1)).filter (fun n => emitTime ov n ≤ T)).length

/- ## Call lifecycle world model (src/server.js lines 27, 46-157, 236-308) -/

/-- The per-call record stored in the calls Map (server.js line 153):
{ pc, audioSource, track, silentInterval }, each field modelled as the
numeric id of the corresponding runtime object. -/
structure Session where
  pc : Nat
  audioSource : Nat
  track : Nat
  silentInterval : Nat
deriving DecidableEq

/-- Placeholder session used to read a heap reference; reachable states
only dereference live references. -/
def defaultSession : Session := ⟨0, 0, 0, 0⟩

/-- Progress of one in-flight playAudioFromDrive invocation. prep holds
the oracle outcomes of the fetch (axios.get) and decode (ffmpeg) awaits
together with the per-frame onData outcomes; streaming holds the
remaining per-frame outcomes after the silent interval was cleared. -/
inductive PbPhase where
  | prep (fetchOk : Bool) (decodeOk : Bool) (frames : List Bool)
  | streaming (frames : List Bool)
deriving DecidableEq

/-- One in-flight playAudioFromDrive task: the callId argument, the
captured audioSource, and the session object reference captured by
const c = calls.get(callId) at entry (server.js line 164). -/
structure Playback where
  callId : String
  source : Nat
  sessRef : Nat
  phase : PbPhase
deriving DecidableEq

/-- Observable state of the server process. calls is the global Map
(server.js line 27) holding references into heap; timers is the set of
live (not yet cleared) interval timers with the audioSource they feed;
closedPcs and stoppedTracks record released WebRTC resources; playbacks
are the in-flight playAudioFromDrive tasks; emitted logs every frame
handed to an RTCAudioSource (source id, true for a file frame and false
for a silence frame), most recent first; appliedIce logs remote ICE
candidates applied to a peer connection. -/
structure World where
  nextId : Nat
  heap : List (Nat × Session)
  calls : List (String × Nat)
  timers : List (Nat × Nat)
  closedPcs : List Nat
  stoppedTracks : List Nat
  playbacks : List Playback
  emitted : List (Nat × Bool)
  appliedIce : List (Nat × Nat)
deriving DecidableEq

/-- cleanupCall (server.js lines 296-308). thr records which statement
of the try block, if any, throws: some 0 for track.stop(), some 1 for
pc.close(), some 2 for clearInterval. A throw is swallowed by the catch
and skips the remainder of the try block; calls.delete always runs. -/
def cleanupCall (thr : Option Nat) (cid : String) (w : World) : World :=
  match alookup cid w.calls with
  | none => w
  | some ref =>
    let c := (alookup ref w.heap).getD defaultSession
    let w1 :=
      if thr = some 0 then w
      else
        let wa := { w with stoppedTracks := c.track :: w.stoppedTracks }
        if thr = some 1 then wa
        else
          let wb := { wa with closedPcs := c.pc :: wa.closedPcs }
          if thr = some 2 then wb
          else { wb with timers := aremove c.silentInterval wb.timers }
    { w1 with calls := aremove cid w1.calls }

/-- Environment outcomes for one handleCallOffer invocation: whether
each awaited external step succeeds, which cleanup step (if any) throws
when an existing session is replaced, and the playback oracle passed on
to the spawned playAudioFromDrive task. -/
structure OfferOracle where
  cleanupThr : Option Nat
  remoteDescOk : Bool
  answerOk : Bool
  preAcceptOk : Bool
  acceptOk : Bool
  fetchOk : Bool
  decodeOk : Bool
  pbFrames : List Bool
deriving DecidableEq

/-- handleCallOffer (server.js lines 88-157). Returns the new world and
true when the invocation throws (the rejection is caught by the webhook
handler, which only logs it, server.js lines 79-82). Fresh ids: the
peer connection, audio source and track are allocated up front; on the
success path a silent keepalive timer and the session object follow,
then calls.set registers the session and playAudioFromDrive is spawned,
capturing the session object found by its initial registry lookup. -/
def handleCallOffer (cid : String) (o : OfferOracle) (w0 : World) : World × Bool :=
  let w1 := if (alookup cid w0.calls).isSome then cleanupCall o.cleanupThr cid w0 else w0
  let pcId := w1.nextId
  let srcId := w1.nextId + 1
  let trackId := w1.nextId + 2
  let w2 := { w1 with nextId := w1.nextId + 3 }
  if o.remoteDescOk = false then (w2, true)
  else if o.answerOk = false then (w2, true)
  else if o.preAcceptOk = false then (w2, true)
  else if o.acceptOk = false then (w2, true)
  else
    let tid := w2.nextId
    let w3 := { w2 with nextId := w2.nextId + 1, timers := (tid, srcId) :: w2.timers }
    let ref := w3.nextId
    let sess : Session := { pc := pcId, audioSource := srcId, track := trackId,
                            silentInterval := tid }
    let w4 := { w3 with nextId := w3.nextId + 1,
                        heap := (ref, sess) :: w3.heap,
                        calls := (cid, ref) :: w3.calls }
    let w5 :=
      match alookup cid w4.calls with
      | none => w4
      | some r =>
        { w4 with playbacks := w4.playbacks ++
            [{ callId := cid, source := srcId, sessRef := r,
               phase := PbPhase.prep o.fetchOk o.decodeOk o.pbFrames }] }
    (w5, false)

/-- One scheduling step of the in-flight playAudioFromDrive task at the
head of the queue (server.js lines 162-231). In phase prep, a failed
fetch or decode is caught and ends the task with nothing else changed;
on success clearInterval(c.silentInterval) stops the silent keepalive
of the captured session object and streaming starts. In streaming, an
exhausted buffer allocates a fresh silent keepalive, stores it into the
captured session object and ends the task; otherwise one frame is sent
to the captured audioSource regardless of registry state, and a throw
from onData is caught and ends the task without restarting silence. -/
def playbackStep (w : World) : World :=
  match w.playbacks with
  | [] => w
  | pb :: rest =>
    match pb.phase with
    | PbPhase.prep fOk dOk frames =>
      if fOk = false then { w with playbacks := rest }
      else if dOk = false then { w with playbacks := rest }
      else
        let c := (alookup pb.sessRef w.heap).getD defaultSession
        { w with timers := aremove c.silentInterval w.timers,
                 playbacks := { pb with phase := PbPhase.streaming frames } :: rest }
    | PbPhase.streaming frames =>
      match frames with
      | [] =>
        let c := (alookup pb.sessRef w.heap).getD defaultSession
        { w with nextId := w.nextId + 1,
                 timers := (w.nextId, pb.source) :: w.timers,
                 heap := (pb.sessRef, { c with silentInterval := w.nextId })
                           :: aremove pb.sessRef w.heap,
                 playbacks := rest }
      | ok :: fs =>
        if ok = true then
          { w with emitted := (pb.source, true) :: w.emitted,
                   playbacks := { pb with phase := PbPhase.streaming fs } :: rest }
        else { w with playbacks := rest }

/-- One firing of an interval timer created by startSilentAudio
(server.js lines 236-249): if the timer is still live it hands one
silence frame to its audioSource; a cleared timer never fires. -/
def timerTick (tid : Nat) (w : World) : World :=
  match alookup tid w.timers with
  | none => w
  | some src => { w with emitted := (src, false) :: w.emitted }

/-- handleRemoteIce (server.js lines 254-263): unknown callId returns
at once; otherwise pc.addIceCandidate is attempted, its possible throw
caught and logged. addOk records whether the engine accepts it. -/
def handleRemoteIce (cid : String) (cand : Nat) (addOk : Bool) (w : World) : World :=
  match alookup cid w.calls with
  | none => w
  | some ref =>
    let c := (alookup ref w.heap).getD defaultSession
    if addOk then { w with appliedIce := (c.pc, cand) :: w.appliedIce } else w

/-- External events driving the system: the three webhook event kinds
dispatched by app.post (server.js lines 56-74) plus the two internal
schedulings (a playback task step and an interval-timer firing). -/
inductive Ev where
  | offer (cid : String) (o : OfferOracle)
  | ice (cid : String) (cand : Nat) (addOk : Bool)
  | hangup (cid : String) (thr : Option Nat)
  | pb
  | tick (tid : Nat)
deriving DecidableEq

/-- Processing of one event. -/
def step (e : Ev) (w : World) : World :=
  match e with
  | Ev.offer cid o => (handleCallOffer cid o w).1
  | Ev.ice cid cand ok => handleRemoteIce cid cand ok w
  | Ev.hangup cid thr => cleanupCall thr cid w
  | Ev.pb => playbackStep w
  | Ev.tick tid => timerTick tid w

/-- Sequential processing of a list of events. -/
def run (w : World) (evs : List Ev) : World :=
  evs.foldl (fun w e => step e w) w

/-- The state of the freshly started server: empty calls Map, nothing
allocated. -/
def initWorld : World := ⟨0, [], [], [], [], [], [], [], []⟩

/- ## Concrete oracles used by scenario runs -/

/-- All external steps succeed; the playback buffer decodes to two
frames, both delivered without fault. -/
def oAllOk : OfferOracle :=
  { cleanupThr := none, remoteDescOk := true, answerOk := true,
    preAcceptOk := true, acceptOk := true, fetchOk := true,
    decodeOk := true, pbFrames := [true, true] }

/-- Negotiation and acceptance succeed, but onData throws while sending
the second playback frame. -/
def oStreamFault : OfferOracle :=
  { cleanupThr := none, remoteDescOk := true, answerOk := true,
    preAcceptOk := true, acceptOk := true, fetchOk := true,
    decodeOk := true, pbFrames := [true, false] }

/-- Negotiation and acceptance succeed, but the file fetch fails. -/
def oFetchFail : OfferOracle :=
  { cleanupThr := none, remoteDescOk := true, answerOk := true,
    preAcceptOk := true, acceptOk := true, fetchOk := false,
    decodeOk := true, pbFrames := [] }

/-- The accept call-control submission is rejected. -/
def oAcceptFail : OfferOracle :=
  { cleanupThr := none, remoteDescOk := true, answerOk := true,
    preAcceptOk := true, acceptOk := false, fetchOk := true,
    decodeOk := true, pbFrames := [] }

/-- Applying the remote SDP offer fails. -/
def oRemoteFail : OfferOracle :=
  { cleanupThr := none, remoteDescOk := false, answerOk := true,
    preAcceptOk := true, acceptOk := true, fetchOk := true,
    decodeOk := true, pbFrames := [] }

/- ## Association-list lemmas -/

theorem alookup_aremove_self {α β : Type} [DecidableEq α] (k : α) (l : List (α × β)) :
    alookup k (aremove k l) = none := by
  induction l with
  | nil => rfl
  | cons e t ih =>
    by_cases h : e.1 = k
    · simp [aremove, h, ih]
    · simp [aremove, alookup, h, ih]

theorem aremove_of_alookup_none {α β : Type} [DecidableEq α] (k : α) (l : List (α × β))
    (h : alookup k l = none) : aremove k l = l := by
  induction l with
  | nil => rfl
  | cons e t ih =>
    by_cases he : e.1 = k
    · simp [alookup, he] at h
    · simp [alookup, he] at h
      simp [aremove, he, ih h]

theorem keys_aremove_sublist {α β : Type} [DecidableEq α] (k : α) (l : List (α × β)) :
    ((aremove k l).map Prod.fst).Sublist (l.map Prod.fst) := by
  induction l with
  | nil => simp [aremove]
  | cons e t ih =>
    by_cases h : e.1 = k
    · simp only [aremove, h, if_pos, List.map_cons]
      exact ih.trans (List.sublist_cons_self _ _)
    · simp only [aremove, h, if_neg, List.map_cons, not_false_iff]
      exact ih.cons₂ _

theorem not_mem_keys_aremove {α β : Type} [DecidableEq α] (k : α) (l : List (α × β)) :
    k ∉ (aremove k l).map Prod.fst := by
  induction l with
  | nil => simp [aremove]
  | cons e t ih =>
    by_cases h : e.1 = k
    · simpa [aremove, h] using ih
    · simp [aremove, h, ih]
      exact fun he => h he.symm

theorem alookup_none_of_not_mem_keys {α β : Type} [DecidableEq α] (k : α)
    (l : List (α × β)) (h : k ∉ l.map Prod.fst) : alookup k l = none := by
  induction l with
  | nil => rfl
  | cons e t ih =>
    simp only [List.map_cons, List.mem_cons] at h
    push_neg at h
    have hne : ¬e.1 = k := fun hc => h.1 hc.symm
    simp [alookup, hne, ih h.2]

theorem not_mem_keys_of_alookup_none {α β : Type} [DecidableEq α] (k : α)
    (l : List (α × β)) (h : alookup k l = none) : k ∉ l.map Prod.fst := by
  induction l with
  | nil => simp
  | cons e t ih =>
    by_cases he : e.1 = k
    · simp [alookup, he] at h
    · simp [alookup, he] at h
      simp [ih h]
      exact fun hc => he hc.symm

/- ## PCM slicing lemmas -/

theorem frameStarts_closed (i n : Nat) :
    frameStarts i n = (List.range ((n - i + 1919) / 1920)).map (fun k => i + 1920 * k) := by
  induction i, n using frameStarts.induct with
  | case1 i n h ih =>
    rw [frameStarts]
    simp only [frameBytes, samplesPerFrame] at ih ⊢
    rw [dif_pos h]
    have hL : (n - i + 1919) / 1920 = (n - (i + 960 * 2) + 1919) / 1920 + 1 := by omega
    rw [hL, List.range_succ_eq_map, List.map_cons, List.map_map, ih]
    have hfun : ((fun k => i + 1920 * k) ∘ Nat.succ) = fun k => i + 960 * 2 + 1920 * k := by
      funext k
      simp [Function.comp, Nat.succ_eq_add_one]
      ring
    rw [hfun]
    simp
  | case2 i n h =>
    rw [frameStarts]
    rw [dif_neg h]
    have hL : (n - i + 1919) / 1920 = 0 := by omega
    rw [hL]
    simp

theorem sliceFrames_length (pcm : List Nat) :
    (sliceFrames pcm).length = (pcm.length + 1919) / 1920 := by
  simp [sliceFrames, frameStarts_closed]

theorem mkFrame_length (pcm : List Nat) (i : Nat) : (mkFrame pcm i).length = 960 := by
  simp [mkFrame, samplesPerFrame]

theorem sliceFrames_getD (pcm : List Nat) (k : Nat) (h : k < (sliceFrames pcm).length) :
    (sliceFrames pcm).getD k [] = mkFrame pcm (1920 * k) := by
  rw [sliceFrames_length] at h
  simp only [sliceFrames, frameStarts_closed, Nat.zero_sub, Nat.sub_zero, List.map_map]
  rw [List.getD_eq_getElem?_getD, List.getElem?_map, List.getElem?_range h]
  simp

theorem mkFrame_getD (pcm : List Nat) (i j : Nat) (h : j < 960) :
    (mkFrame pcm i).getD j 0 = frameSample pcm i j := by
  simp only [mkFrame, samplesPerFrame]
  rw [List.getD_eq_getElem?_getD, List.getElem?_map, List.getElem?_range h]
  simp

/-- C7: for every nonempty raw PCM byte buffer the slicing loop of
playAudioFromDrive produces ceil(N/1920) frames of 960 samples each;
a sample whose two source bytes lie inside the buffer is the
little-endian int16 read there, and every sample reaching past the end
of the buffer is zero (the final short frame is zero-padded, not
dropped). Here (N + 1919) / 1920 is ceil(N/1920) in Nat arithmetic. -/
theorem c7_frame_slicing (pcm : List Nat) (_hN : 0 < pcm.length) :
    (sliceFrames pcm).length = (pcm.length + 1919) / 1920 ∧
    (∀ f ∈ sliceFrames pcm, f.length = 960) ∧
    (∀ k j, k < (sliceFrames pcm).length → j < 960 →
      ((sliceFrames pcm).getD k []).getD j 0 =
        if 1920 * k + j * 2 + 1 < pcm.length
        then toInt16 (pcm.getD (1920 * k + j * 2) 0 +
                      256 * pcm.getD (1920 * k + j * 2 + 1) 0)
        else 0) := by
  refine ⟨sliceFrames_length pcm, ?_, ?_⟩
  · intro f hf
    simp only [sliceFrames, List.mem_map] at hf
    obtain ⟨i, _, rfl⟩ := hf
    exact mkFrame_length pcm i
  · intro k j hk hj
    rw [sliceFrames_getD pcm k hk, mkFrame_getD pcm _ j hj]
    simp [frameSample, readInt16LE]

/-- Witness for C7 at the one-byte buffer [5]: a single frame, all of
it zero-padded except the (absent) first full sample pair. -/
theorem c7_witness :
    0 < ([5] : List Nat).length ∧
    ((sliceFrames [5]).length = (([5] : List Nat).length + 1919) / 1920 ∧
     (∀ f ∈ sliceFrames [5], f.length = 960) ∧
     (∀ k j, k < (sliceFrames [5]).length → j < 960 →
       ((sliceFrames [5]).getD k []).getD j 0 =
         if 1920 * k + j * 2 + 1 < ([5] : List Nat).length
         then toInt16 (([5] : List Nat).getD (1920 * k + j * 2) 0 +
                       256 * ([5] : List Nat).getD (1920 * k + j * 2 + 1) 0)
         else 0)) :=
  ⟨by decide, c7_frame_slicing [5] (by decide)⟩

/- ## Timing lemmas for the relative re-arm schedule -/

theorem emitTime_lower (ov : Nat → Nat) : ∀ n, 20 * n ≤ emitTime ov n
  | 0 => by simp [emitTime]
  | n + 1 => by
    have h := emitTime_lower ov n
    simp only [emitTime]
    omega

theorem length_filter_implies {α : Type} (l : List α) (p q : α → Bool)
    (h : ∀ a, p a = true → q a = true) :
    (l.filter p).length ≤ (l.filter q).length := by
  induction l with
  | nil => simp
  | cons a t ih =>
    rw [List.filter_cons, List.filter_cons]
    by_cases hp : p a = true
    · simp only [hp, h a hp, if_pos, List.length_cons]
      omega
    · simp only [hp, if_neg, not_false_iff, Bool.not_eq_true]
      by_cases hq : q a = true
      · simp only [hq, if_pos, List.length_cons]
        omega
      · simp only [hq, if_neg, not_false_iff, Bool.not_eq_true]
        exact ih

theorem length_filter_range_le (K N : Nat) :
    ((List.range N).filter (fun n => decide (n ≤ K))).length = min N (K + 1) := by
  induction N with
  | zero => simp
  | succ N ih =>
    rw [List.range_succ, List.filter_append, List.length_append, ih]
    by_cases h : N ≤ K
    · have hd : decide (N ≤ K) = true := by simpa using h
      simp only [List.filter_cons, List.filter_nil, hd]
      simp only [if_pos, List.length_cons, List.length_nil]
      omega
    · have hd : decide (N ≤ K) = false := by simpa using h
      simp only [List.filter_cons, List.filter_nil, hd]
      simp only [Bool.false_eq_true, if_neg, not_false_iff, List.length_nil]
      omega

/-- C1 counterexample: the playback loop re-arms relatively (send a
frame, then await wait(20)), so scheduling overhead accumulates. With
20 ms of overhead per iteration, only 3 frames are forwarded by
t = 100 ms, while the claimed bound T/20 - 1 demands at least 4; the
claimed window property T/20 plus or minus 1 is therefore false of the
code, which uses no absolute-deadline schedule. -/
theorem c1_counterexample :
    ¬ (100 / 20 - 1 ≤ framesWithin (fun _ => 20) 100 ∧
       framesWithin (fun _ => 20) 100 ≤ 100 / 20 + 1) := by
  decide

/-- C1 amended: the code schedules each frame 20 ms plus the iteration
overhead after the previous one (relative re-arming, server.js lines
200-220 and 236-249), so over any window of T ms it forwards at most
T/20 + 1 frames of 960 samples each; the claimed lower bound T/20 - 1
fails under accumulated overhead, so there is no drift-free guarantee. -/
theorem c1_amended (ov : Nat → Nat) (T : Nat) :
    framesWithin ov T ≤ T / 20 + 1 ∧ ∀ pcm i, (mkFrame pcm i).length = 960 := by
  constructor
  · have himp : ∀ n, decide (emitTime ov n ≤ T) = true → decide (n ≤ T / 20) = true := by
      intro n hn
      simp only [decide_eq_true_eq] at hn ⊢
      have h20 := emitTime_lower ov n
      omega
    have hmono := length_filter_implies (List.range (T + 1))
      (fun n => decide (emitTime ov n ≤ T)) (fun n => decide (n ≤ T / 20)) himp
    have hlen := length_filter_range_le (T / 20) (T + 1)
    unfold framesWithin
    omega
  · intro pcm i
    exact mkFrame_length pcm i

/- ## Cleanup characterizations -/

theorem cleanupCall_not_found (thr : Option Nat) (cid : String) (w : World)
    (h : alookup cid w.calls = none) : cleanupCall thr cid w = w := by
  simp [cleanupCall, h]

theorem cleanupCall_calls (thr : Option Nat) (cid : String) (w : World) :
    (cleanupCall thr cid w).calls = aremove cid w.calls := by
  unfold cleanupCall
  cases h : alookup cid w.calls with
  | none => simp [aremove_of_alookup_none cid w.calls h]
  | some ref => split_ifs <;> rfl

theorem cleanupCall_nextId (thr : Option Nat) (cid : String) (w : World) :
    (cleanupCall thr cid w).nextId = w.nextId := by
  unfold cleanupCall
  cases alookup cid w.calls with
  | none => rfl
  | some ref => split_ifs <;> rfl

theorem cleanupCall_heap (thr : Option Nat) (cid : String) (w : World) :
    (cleanupCall thr cid w).heap = w.heap := by
  unfold cleanupCall
  cases alookup cid w.calls with
  | none => rfl
  | some ref => split_ifs <;> rfl

theorem cleanupCall_playbacks (thr : Option Nat) (cid : String) (w : World) :
    (cleanupCall thr cid w).playbacks = w.playbacks := by
  unfold cleanupCall
  cases alookup cid w.calls with
  | none => rfl
  | some ref => split_ifs <;> rfl

theorem cleanupCall_emitted (thr : Option Nat) (cid : String) (w : World) :
    (cleanupCall thr cid w).emitted = w.emitted := by
  unfold cleanupCall
  cases alookup cid w.calls with
  | none => rfl
  | some ref => split_ifs <;> rfl

theorem cleanupCall_appliedIce (thr : Option Nat) (cid : String) (w : World) :
    (cleanupCall thr cid w).appliedIce = w.appliedIce := by
  unfold cleanupCall
  cases alookup cid w.calls with
  | none => rfl
  | some ref => split_ifs <;> rfl

/-- Full characterization of a non-throwing teardown of a registered
call: track stopped, connection closed, timer cleared, entry removed. -/
theorem cleanupCall_none_found (cid : String) (w : World) (ref : Nat)
    (h : alookup cid w.calls = some ref) :
    cleanupCall none cid w =
      { w with
        stoppedTracks := ((alookup ref w.heap).getD defaultSession).track :: w.stoppedTracks,
        closedPcs := ((alookup ref w.heap).getD defaultSession).pc :: w.closedPcs,
        timers := aremove ((alookup ref w.heap).getD defaultSession).silentInterval w.timers,
        calls := aremove cid w.calls } := by
  unfold cleanupCall
  rw [h]
  simp

/- ## Offer characterizations -/

/-- The calls Map right after the initial replacement check of
handleCallOffer: any prior entry for cid is gone. -/
theorem offerBranch_calls (thr : Option Nat) (cid : String) (w : World) :
    (if (alookup cid w.calls).isSome then cleanupCall thr cid w else w).calls =
      aremove cid w.calls := by
  cases h : alookup cid w.calls with
  | none => simp [h, aremove_of_alookup_none cid w.calls h]
  | some r => simp [h, cleanupCall_calls]

/-- A fully successful offer: old session (if any) torn down, three
WebRTC objects allocated, silent keepalive started, session registered,
playback task spawned with the registered session captured. -/
theorem handleCallOffer_success (cid : String) (o : OfferOracle) (w w1 : World)
    (hw1 : w1 = if (alookup cid w.calls).isSome then cleanupCall o.cleanupThr cid w else w)
    (h1 : o.remoteDescOk = true) (h2 : o.answerOk = true)
    (h3 : o.preAcceptOk = true) (h4 : o.acceptOk = true) :
    handleCallOffer cid o w =
      ({ w1 with
         nextId := w1.nextId + 5,
         heap := (w1.nextId + 4,
                   { pc := w1.nextId, audioSource := w1.nextId + 1,
                     track := w1.nextId + 2, silentInterval := w1.nextId + 3 }) :: w1.heap,
         calls := (cid, w1.nextId + 4) :: w1.calls,
         timers := (w1.nextId + 3, w1.nextId + 1) :: w1.timers,
         playbacks := w1.playbacks ++
           [{ callId := cid, source := w1.nextId + 1, sessRef := w1.nextId + 4,
              phase := PbPhase.prep o.fetchOk o.decodeOk o.pbFrames }] }, false) := by
  subst hw1
  simp [handleCallOffer, h1, h2, h3, h4, alookup]

/-- A failing offer (any of the four awaited steps rejects): the thrown
error propagates to the webhook handler, which only logs it. Nothing
past the replacement check and the three allocations happens: no
teardown of the fresh objects, no timer, no registry entry. -/
theorem handleCallOffer_failure (cid : String) (o : OfferOracle) (w w1 : World)
    (hw1 : w1 = if (alookup cid w.calls).isSome then cleanupCall o.cleanupThr cid w else w)
    (h : o.remoteDescOk = false ∨ o.answerOk = false ∨
         o.preAcceptOk = false ∨ o.acceptOk = false) :
    handleCallOffer cid o w = ({ w1 with nextId := w1.nextId + 3 }, true) := by
  subst hw1
  unfold handleCallOffer
  rcases h with h | h | h | h
  · simp [h]
  · cases hr : o.remoteDescOk <;> simp [hr, h]
  · cases hr : o.remoteDescOk <;> cases ha : o.answerOk <;> simp [hr, ha, h]
  · cases hr : o.remoteDescOk <;> cases ha : o.answerOk <;>
      cases hp : o.preAcceptOk <;> simp [hr, ha, hp, h]

/- ## Field preservation of the remaining steps -/

theorem playbackStep_calls (w : World) : (playbackStep w).calls = w.calls := by
  unfold playbackStep
  rcases w.playbacks with _ | ⟨pb, rest⟩
  · rfl
  · rcases pb with ⟨cid, src, ref, phase⟩
    rcases phase with ⟨fOk, dOk, frames⟩ | frames
    · dsimp only
      split_ifs <;> rfl
    · rcases frames with _ | ⟨ok, fs⟩
      · rfl
      · dsimp only
        split_ifs <;> rfl

theorem timerTick_calls (tid : Nat) (w : World) : (timerTick tid w).calls = w.calls := by
  unfold timerTick
  cases alookup tid w.timers <;> rfl

theorem timerTick_not_live (tid : Nat) (w : World)
    (h : alookup tid w.timers = none) : timerTick tid w = w := by
  simp [timerTick, h]

theorem handleRemoteIce_calls (cid : String) (cand : Nat) (addOk : Bool) (w : World) :
    (handleRemoteIce cid cand addOk w).calls = w.calls := by
  unfold handleRemoteIce
  cases alookup cid w.calls with
  | none => rfl
  | some ref => split_ifs <;> rfl

theorem handleRemoteIce_not_found (cid : String) (cand : Nat) (addOk : Bool) (w : World)
    (h : alookup cid w.calls = none) : handleRemoteIce cid cand addOk w = w := by
  simp [handleRemoteIce, h]

/- ## C9: teardown idempotence -/

/-- C9: invoking cleanupCall twice for the same callId yields exactly
the state of invoking it once, whatever each invocation's environment
does, and the registry entry is absent afterwards. The second
invocation finds no entry and returns before the try block, so it can
raise nothing (cleanupCall is total and its try block swallows throws). -/
theorem c9_teardown_idempotent (w : World) (cid : String) (o1 o2 : Option Nat) :
    cleanupCall o2 cid (cleanupCall o1 cid w) = cleanupCall o1 cid w ∧
    alookup cid (cleanupCall o1 cid w).calls = none := by
  have h2 : alookup cid (cleanupCall o1 cid w).calls = none := by
    rw [cleanupCall_calls]
    exact alookup_aremove_self cid w.calls
  exact ⟨cleanupCall_not_found o2 cid _ h2, h2⟩

/- ## C8: teardown steps -/

/-- C8 counterexample: all three resource steps of cleanupCall sit in
one try block (server.js lines 300-304). Starting from a registered
call (pc 0, track 2, timer 3), a throw from the first statement
track.stop() skips pc.close() and clearInterval: afterwards the entry
is removed but no connection was closed, no track stopped, and the
silent keepalive timer 3 still fires. This refutes the claim that no
step is skipped when an earlier step raises. -/
theorem c8_counterexample :
    alookup "A" (cleanupCall (some 0) "A" (run initWorld [Ev.offer "A" oAllOk])).calls
      = none ∧
    (cleanupCall (some 0) "A" (run initWorld [Ev.offer "A" oAllOk])).closedPcs = [] ∧
    (cleanupCall (some 0) "A" (run initWorld [Ev.offer "A" oAllOk])).stoppedTracks = [] ∧
    alookup 3 (cleanupCall (some 0) "A" (run initWorld [Ev.offer "A" oAllOk])).timers
      = some 1 := by
  decide

/-- C8 amended: teardown removes the Call Registry entry in every case,
and when no resource step raises it stops the track, closes the
connection and clears the frame timer (in that source order); but the
three resource steps share a single exception guard, so a raise in an
earlier one skips the later ones — only the registry removal is
unconditional. -/
theorem c8_amended (w : World) (cid : String) (thr : Option Nat) :
    alookup cid (cleanupCall thr cid w).calls = none ∧
    (∀ ref c, thr = none → alookup cid w.calls = some ref →
      (alookup ref w.heap).getD defaultSession = c →
      c.track ∈ (cleanupCall thr cid w).stoppedTracks ∧
      c.pc ∈ (cleanupCall thr cid w).closedPcs ∧
      alookup c.silentInterval (cleanupCall thr cid w).timers = none) := by
  constructor
  · rw [cleanupCall_calls]
    exact alookup_aremove_self cid w.calls
  · rintro ref c rfl h hc
    subst hc
    rw [cleanupCall_none_found cid w ref h]
    exact ⟨List.mem_cons_self _ _, List.mem_cons_self _ _, alookup_aremove_self _ _⟩

/-- Witness for C8 amended at a freshly accepted call. -/
theorem c8_witness :
    (2 : Nat) ∈ (cleanupCall none "A" (run initWorld [Ev.offer "A" oAllOk])).stoppedTracks ∧
    (0 : Nat) ∈ (cleanupCall none "A" (run initWorld [Ev.offer "A" oAllOk])).closedPcs ∧
    alookup 3 (cleanupCall none "A" (run initWorld [Ev.offer "A" oAllOk])).timers = none :=
  (c8_amended (run initWorld [Ev.offer "A" oAllOk]) "A" none).2 4 ⟨0, 1, 2, 3⟩
    rfl (by decide) (by decide)

/- ## C2: hangup -/

/-- C2 counterexample: a call is accepted and its playback loop has
started streaming; one frame goes out, then the hangup is processed
(registry entry removed, timer cleared, track stopped), yet the next
scheduling of the still-running playback loop forwards one more file
frame to the audio source of call A — the loop never rechecks the
registry (server.js lines 200-220). So frames are forwarded after the
hangup, refuting the no-further-frames part of the claim. -/
theorem c2_counterexample :
    alookup "A" (run initWorld
      [Ev.offer "A" oAllOk, Ev.pb, Ev.pb, Ev.hangup "A" none]).calls = none ∧
    (run initWorld [Ev.offer "A" oAllOk, Ev.pb, Ev.pb, Ev.hangup "A" none, Ev.pb]).emitted
      = (1, true) ::
        (run initWorld [Ev.offer "A" oAllOk, Ev.pb, Ev.pb, Ev.hangup "A" none]).emitted := by
  decide

/-- C2 amended: after a hangup for a registered callId is processed the
Call Registry holds no entry for it and the session's silent keepalive
timer is cleared, so that timer never fires again; but an in-flight
file-playback loop is not stopped and keeps forwarding its remaining
frames to the session's track (and restarts a silence keepalive when it
finishes). -/
theorem c2_amended (w : World) (cid : String) (ref : Nat) (c : Session)
    (h1 : alookup cid w.calls = some ref)
    (h2 : (alookup ref w.heap).getD defaultSession = c) :
    alookup cid (cleanupCall none cid w).calls = none ∧
    alookup c.silentInterval (cleanupCall none cid w).timers = none ∧
    timerTick c.silentInterval (cleanupCall none cid w) = cleanupCall none cid w := by
  subst h2
  have hch := cleanupCall_none_found cid w ref h1
  refine ⟨?_, ?_, ?_⟩
  · rw [cleanupCall_calls]
    exact alookup_aremove_self cid w.calls
  · rw [hch]
    exact alookup_aremove_self _ _
  · apply timerTick_not_live
    rw [hch]
    exact alookup_aremove_self _ _

/-- Witness for C2 amended at a freshly accepted call A. -/
theorem c2_witness :
    alookup "A" (cleanupCall none "A" (run initWorld [Ev.offer "A" oAllOk])).calls = none ∧
    alookup 3 (cleanupCall none "A" (run initWorld [Ev.offer "A" oAllOk])).timers = none ∧
    timerTick 3 (cleanupCall none "A" (run initWorld [Ev.offer "A" oAllOk]))
      = cleanupCall none "A" (run initWorld [Ev.offer "A" oAllOk]) :=
  c2_amended (run initWorld [Ev.offer "A" oAllOk]) "A" 4 ⟨0, 1, 2, 3⟩
    (by decide) (by decide)

/- ## C4: playback-pipeline faults -/

/-- C4 counterexample: the playback loop clears the silent keepalive
before streaming (server.js line 191), and the catch block (line 228)
does not restart it. If onData throws while sending the second frame,
the session stays registered but no timer is live and the playback task
is gone: the active audio source does not revert to the silence
generator and the call receives nothing, refuting the claim for faults
raised during frame streaming. -/
theorem c4_counterexample :
    alookup "A" (run initWorld
      [Ev.offer "A" oStreamFault, Ev.pb, Ev.pb, Ev.pb]).calls = some 4 ∧
    (run initWorld [Ev.offer "A" oStreamFault, Ev.pb, Ev.pb, Ev.pb]).timers = [] ∧
    (run initWorld [Ev.offer "A" oStreamFault, Ev.pb, Ev.pb, Ev.pb]).playbacks = [] ∧
    timerTick 3 (run initWorld [Ev.offer "A" oStreamFault, Ev.pb, Ev.pb, Ev.pb])
      = run initWorld [Ev.offer "A" oStreamFault, Ev.pb, Ev.pb, Ev.pb] := by
  decide

/-- C4 amended: playback-pipeline faults never touch the Call Registry
(the session stays registered in its current state), and a fetch or
decode failure happens before the silent keepalive is cleared, so the
call then continues on silence; but a fault raised after that point
(during frame reading or streaming) ends the playback task without
restarting the silence generator, leaving the session with no active
audio source. -/
theorem c4_amended (w : World) (pb : Playback) (rest : List Playback)
    (h : w.playbacks = pb :: rest) :
    (playbackStep w).calls = w.calls ∧
    (∀ dOk frames, pb.phase = PbPhase.prep false dOk frames →
      (playbackStep w).timers = w.timers ∧ (playbackStep w).emitted = w.emitted ∧
      (playbackStep w).playbacks = rest) ∧
    (∀ frames, pb.phase = PbPhase.prep true false frames →
      (playbackStep w).timers = w.timers ∧ (playbackStep w).emitted = w.emitted ∧
      (playbackStep w).playbacks = rest) := by
  refine ⟨playbackStep_calls w, ?_, ?_⟩
  · rintro dOk frames hp
    unfold playbackStep
    rw [h]
    dsimp only
    rw [hp]
    simp
  · rintro frames hp
    unfold playbackStep
    rw [h]
    dsimp only
    rw [hp]
    simp

/-- Witness for C4 amended at a call whose file fetch fails. -/
theorem c4_witness :
    (run initWorld [Ev.offer "A" oFetchFail]).playbacks =
      ({ callId := "A", source := 1, sessRef := 4,
         phase := PbPhase.prep false true [] } : Playback) :: [] ∧
    ((playbackStep (run initWorld [Ev.offer "A" oFetchFail])).calls =
        (run initWorld [Ev.offer "A" oFetchFail]).calls ∧
     (∀ dOk frames,
        ({ callId := "A", source := 1, sessRef := 4,
           phase := PbPhase.prep false true [] } : Playback).phase
          = PbPhase.prep false dOk frames →
        (playbackStep (run initWorld [Ev.offer "A" oFetchFail])).timers =
          (run initWorld [Ev.offer "A" oFetchFail]).timers ∧
        (playbackStep (run initWorld [Ev.offer "A" oFetchFail])).emitted =
          (run initWorld [Ev.offer "A" oFetchFail]).emitted ∧
        (playbackStep (run initWorld [Ev.offer "A" oFetchFail])).playbacks = []) ∧
     (∀ frames,
        ({ callId := "A", source := 1, sessRef := 4,
           phase := PbPhase.prep false true [] } : Playback).phase
          = PbPhase.prep true false frames →
        (playbackStep (run initWorld [Ev.offer "A" oFetchFail])).timers =
          (run initWorld [Ev.offer "A" oFetchFail]).timers ∧
        (playbackStep (run initWorld [Ev.offer "A" oFetchFail])).emitted =
          (run initWorld [Ev.offer "A" oFetchFail]).emitted ∧
        (playbackStep (run initWorld [Ev.offer "A" oFetchFail])).playbacks = [])) :=
  ⟨by decide,
   c4_amended (run initWorld [Ev.offer "A" oFetchFail])
     { callId := "A", source := 1, sessRef := 4, phase := PbPhase.prep false true [] }
     [] (by decide)⟩

/- ## C5: pre-accept or accept failure -/

/-- C5 counterexample: when the accept submission is rejected, the
rejection propagates out of handleCallOffer to the webhook catch block
(server.js lines 79-82), which only logs it. After the failed offer for
a fresh call, three WebRTC objects were allocated (nextId = 3: pc 0,
source 1, track 2), yet no connection was closed and no track was
stopped — no teardown is performed, refuting the full-teardown claim. -/
theorem c5_counterexample :
    (handleCallOffer "A" oAcceptFail initWorld).2 = true ∧
    alookup "A" ((handleCallOffer "A" oAcceptFail initWorld).1).calls = none ∧
    ((handleCallOffer "A" oAcceptFail initWorld).1).closedPcs = [] ∧
    ((handleCallOffer "A" oAcceptFail initWorld).1).stoppedTracks = [] ∧
    ((handleCallOffer "A" oAcceptFail initWorld).1).nextId = 3 := by
  decide

/-- C5 amended: if pre-accept or accept fails, the session is never
registered (no Call Registry entry) and no frame timer is started, and
the error propagates to the webhook handler; but no explicit teardown
is performed — the fresh peer connection is not closed and its track is
not stopped, so those resources leak. -/
theorem c5_amended (w : World) (cid : String) (o : OfferOracle)
    (h0 : alookup cid w.calls = none)
    (h1 : o.preAcceptOk = false ∨ o.acceptOk = false) :
    alookup cid ((handleCallOffer cid o w).1).calls = none ∧
    (handleCallOffer cid o w).2 = true ∧
    ((handleCallOffer cid o w).1).timers = w.timers ∧
    ((handleCallOffer cid o w).1).closedPcs = w.closedPcs ∧
    ((handleCallOffer cid o w).1).stoppedTracks = w.stoppedTracks := by
  have hchar := handleCallOffer_failure cid o w w (by simp [h0])
    (Or.inr (Or.inr h1))
  rw [hchar]
  exact ⟨h0, rfl, rfl, rfl, rfl⟩

/-- Witness for C5 amended at the empty world with a rejected accept. -/
theorem c5_witness :
    alookup "A" ((handleCallOffer "A" oAcceptFail initWorld).1).calls = none ∧
    (handleCallOffer "A" oAcceptFail initWorld).2 = true ∧
    ((handleCallOffer "A" oAcceptFail initWorld).1).timers = initWorld.timers ∧
    ((handleCallOffer "A" oAcceptFail initWorld).1).closedPcs = initWorld.closedPcs ∧
    ((handleCallOffer "A" oAcceptFail initWorld).1).stoppedTracks
      = initWorld.stoppedTracks :=
  c5_amended initWorld "A" oAcceptFail (by decide) (Or.inr rfl)

/- ## C6: negotiation failure -/

/-- C6 counterexample: when setRemoteDescription rejects, the rejection
propagates out of handleCallOffer with no try/finally in between: the
freshly constructed RTCPeerConnection (pc 0, allocated as nextId goes
0 to 3) is never closed. No registry entry is added, but the handle is
not released, refuting the released-immediately part of the claim. -/
theorem c6_counterexample :
    (handleCallOffer "A" oRemoteFail initWorld).2 = true ∧
    alookup "A" ((handleCallOffer "A" oRemoteFail initWorld).1).calls = none ∧
    ((handleCallOffer "A" oRemoteFail initWorld).1).closedPcs = [] ∧
    ((handleCallOffer "A" oRemoteFail initWorld).1).nextId = 3 := by
  decide

/-- C6 amended: if applying the remote offer or generating the answer
fails, session creation is aborted with no Call Registry entry ever
added for the callId and the error propagates to the webhook handler;
but the peer connection is not released — it is left open (no close is
recorded) and simply leaks. -/
theorem c6_amended (w : World) (cid : String) (o : OfferOracle)
    (h0 : alookup cid w.calls = none)
    (h1 : o.remoteDescOk = false ∨ o.answerOk = false) :
    alookup cid ((handleCallOffer cid o w).1).calls = none ∧
    (handleCallOffer cid o w).2 = true ∧
    ((handleCallOffer cid o w).1).closedPcs = w.closedPcs ∧
    ((handleCallOffer cid o w).1).nextId = w.nextId + 3 := by
  have hor : o.remoteDescOk = false ∨ o.answerOk = false ∨
      o.preAcceptOk = false ∨ o.acceptOk = false := by
    rcases h1 with h | h
    · exact Or.inl h
    · exact Or.inr (Or.inl h)
  have hchar := handleCallOffer_failure cid o w w (by simp [h0]) hor
  rw [hchar]
  exact ⟨h0, rfl, rfl, rfl⟩

/-- Witness for C6 amended at the empty world with a rejected remote
description. -/
theorem c6_witness :
    alookup "A" ((handleCallOffer "A" oRemoteFail initWorld).1).calls = none ∧
    (handleCallOffer "A" oRemoteFail initWorld).2 = true ∧
    ((handleCallOffer "A" oRemoteFail initWorld).1).closedPcs = initWorld.closedPcs ∧
    ((handleCallOffer "A" oRemoteFail initWorld).1).nextId = initWorld.nextId + 3 :=
  c6_amended initWorld "A" oRemoteFail (by decide) (Or.inl rfl)

/- ## C10: remote ICE for an unknown callId -/

/-- C10: a remote ICE event whose callId is not in the calls Map
returns immediately — the world is unchanged and nothing is applied to
any negotiation handle (and handleRemoteIce is total, so no error is
raised); moreover calls.set runs only after both pre-accept and accept
succeed, so after an offer whose pre-accept or accept failed the callId
is unregistered, no candidate was applied, and a subsequent remote ICE
event for it is the same silent no-op. -/
theorem c10_unknown_ice_noop (w : World) (cid : String) (cand : Nat) (addOk : Bool)
    (o : OfferOracle) (h : alookup cid w.calls = none) :
    handleRemoteIce cid cand addOk w = w ∧
    (o.preAcceptOk = false ∨ o.acceptOk = false →
      alookup cid ((handleCallOffer cid o w).1).calls = none ∧
      ((handleCallOffer cid o w).1).appliedIce = w.appliedIce ∧
      handleRemoteIce cid cand addOk ((handleCallOffer cid o w).1)
        = (handleCallOffer cid o w).1) := by
  refine ⟨handleRemoteIce_not_found cid cand addOk w h, ?_⟩
  intro hf
  have hchar := handleCallOffer_failure cid o w w (by simp [h])
    (Or.inr (Or.inr hf))
  rw [hchar]
  exact ⟨h, rfl, handleRemoteIce_not_found _ _ _ _ h⟩

/-- Witness for C10 at the empty world: an ICE candidate for the
unknown call A is dropped, also after an offer whose accept failed. -/
theorem c10_witness :
    handleRemoteIce "A" 7 true initWorld = initWorld ∧
    (oAcceptFail.preAcceptOk = false ∨ oAcceptFail.acceptOk = false →
      alookup "A" ((handleCallOffer "A" oAcceptFail initWorld).1).calls = none ∧
      ((handleCallOffer "A" oAcceptFail initWorld).1).appliedIce
        = initWorld.appliedIce ∧
      handleRemoteIce "A" 7 true ((handleCallOffer "A" oAcceptFail initWorld).1)
        = (handleCallOffer "A" oAcceptFail initWorld).1) :=
  c10_unknown_ice_noop initWorld "A" 7 true oAcceptFail (by decide)

/- ## C3: at most one session per callId -/

/-- Every event preserves distinctness of the callId keys of the calls
Map: an offer first removes any entry for its callId (via cleanupCall)
and only then registers the single new entry; all other events remove
entries or leave the Map alone. -/
theorem step_keys_nodup (e : Ev) (w : World)
    (h : (w.calls.map Prod.fst).Nodup) : (((step e w).calls).map Prod.fst).Nodup := by
  cases e with
  | offer cid o =>
    show ((((handleCallOffer cid o w).1).calls).map Prod.fst).Nodup
    by_cases hs : o.remoteDescOk = true ∧ o.answerOk = true ∧
        o.preAcceptOk = true ∧ o.acceptOk = true
    · obtain ⟨h1, h2, h3, h4⟩ := hs
      rw [handleCallOffer_success cid o w _ rfl h1 h2 h3 h4]
      dsimp only
      rw [offerBranch_calls]
      simp only [List.map_cons, List.nodup_cons]
      exact ⟨not_mem_keys_aremove cid w.calls,
             List.Nodup.sublist (keys_aremove_sublist cid w.calls) h⟩
    · simp only [not_and_or, Bool.not_eq_true] at hs
      rw [handleCallOffer_failure cid o w _ rfl hs]
      dsimp only
      rw [offerBranch_calls]
      exact List.Nodup.sublist (keys_aremove_sublist cid w.calls) h
  | ice cid cand ok =>
    show (((handleRemoteIce cid cand ok w).calls).map Prod.fst).Nodup
    rw [handleRemoteIce_calls]
    exact h
  | hangup cid thr =>
    show (((cleanupCall thr cid w).calls).map Prod.fst).Nodup
    rw [cleanupCall_calls]
    exact List.Nodup.sublist (keys_aremove_sublist cid w.calls) h
  | pb =>
    show (((playbackStep w).calls).map Prod.fst).Nodup
    rw [playbackStep_calls]
    exact h
  | tick tid =>
    show (((timerTick tid w).calls).map Prod.fst).Nodup
    rw [timerTick_calls]
    exact h

theorem run_keys_nodup (evs : List Ev) : ∀ w : World,
    (w.calls.map Prod.fst).Nodup → (((run w evs).calls).map Prod.fst).Nodup := by
  induction evs with
  | nil => exact fun w h => h
  | cons e t ih => exact fun w h => ih (step e w) (step_keys_nodup e w h)

/-- C3: processing any sequence of webhook and scheduler events one at
a time from server start keeps the calls Map keyed uniquely, so at most
one live session is registered per callId at any instant; and when an
offer arrives for an already-registered callId and completes, the old
session is torn down (its track stopped, its connection closed, its
silent keepalive timer cleared) and the registered entry is the fresh
session, a different object. The bound hypotheses say the old session
ids were allocated before the current allocation counter, which holds
in every reachable world. -/
theorem c3_single_session :
    (∀ evs : List Ev, (((run initWorld evs).calls).map Prod.fst).Nodup) ∧
    (∀ (w : World) (cid : String) (ref : Nat) (c : Session) (o : OfferOracle),
      alookup cid w.calls = some ref →
      (alookup ref w.heap).getD defaultSession = c →
      c.silentInterval < w.nextId → ref < w.nextId →
      o.cleanupThr = none → o.remoteDescOk = true → o.answerOk = true →
      o.preAcceptOk = true → o.acceptOk = true →
      c.track ∈ ((handleCallOffer cid o w).1).stoppedTracks ∧
      c.pc ∈ ((handleCallOffer cid o w).1).closedPcs ∧
      alookup c.silentInterval ((handleCallOffer cid o w).1).timers = none ∧
      alookup cid ((handleCallOffer cid o w).1).calls = some (w.nextId + 4) ∧
      ref ≠ w.nextId + 4) := by
  constructor
  · intro evs
    exact run_keys_nodup evs initWorld (by simp [initWorld])
  · intro w cid ref c o h1 h2 hlt href hthr hr ha hp hac
    have hw1 : cleanupCall none cid w =
        (if (alookup cid w.calls).isSome then cleanupCall o.cleanupThr cid w else w) := by
      simp [h1, hthr]
    have hchar := handleCallOffer_success cid o w (cleanupCall none cid w) hw1 hr ha hp hac
    have hcc := cleanupCall_none_found cid w ref h1
    rw [h2] at hcc
    rw [hchar]
    dsimp only
    rw [hcc]
    dsimp only
    refine ⟨List.mem_cons_self _ _, List.mem_cons_self _ _, ?_, ?_, by omega⟩
    · simp only [alookup]
      rw [if_neg (by omega : ¬((w.nextId + 3 : Nat) = c.silentInterval))]
      exact alookup_aremove_self _ _
    · simp [alookup]

/-- Witness for C3: a second offer for the already-registered call A
(registered with pc 0, source 1, track 2, timer 3 at heap ref 4)
replaces it, releasing the old resources and registering entry 9. -/
theorem c3_witness :
    (((run initWorld [Ev.offer "A" oAllOk]).calls).map Prod.fst).Nodup ∧
    ((2 : Nat) ∈
      ((handleCallOffer "A" oAllOk (run initWorld [Ev.offer "A" oAllOk])).1).stoppedTracks ∧
     (0 : Nat) ∈
      ((handleCallOffer "A" oAllOk (run initWorld [Ev.offer "A" oAllOk])).1).closedPcs ∧
     alookup 3
      ((handleCallOffer "A" oAllOk (run initWorld [Ev.offer "A" oAllOk])).1).timers
        = none ∧
     alookup "A"
      ((handleCallOffer "A" oAllOk (run initWorld [Ev.offer "A" oAllOk])).1).calls
        = some ((run initWorld [Ev.offer "A" oAllOk]).nextId + 4) ∧
     (4 : Nat) ≠ (run initWorld [Ev.offer "A" oAllOk]).nextId + 4) :=
  ⟨c3_single_session.1 [Ev.offer "A" oAllOk],
   c3_single_session.2 (run initWorld [Ev.offer "A" oAllOk]) "A" 4 ⟨0, 1, 2, 3⟩ oAllOk
     (by decide) (by decide) (by decide) (by decide) rfl rfl rfl rfl rfl⟩

end WaCall
